import Mathlib

/-!
A shallow embedding of `src/particle-layer.js` of the deck.gl-particle
repository, together with theorems about its specification.

The embedding translates the JavaScript directly:
* `Float32Array` buffer contents become `List ℝ`;
* `Buffer.copyData` / `Buffer.subData` become explicit list surgery with the
  source's byte offsets (4 bytes per float);
* the layer's mutable `this.state` becomes the record `LayerState`, updated by
  explicit state passing; code that would throw a `TypeError` (method call on
  `undefined`) returns `Except.error` carrying the state at the fault;
* the GPU `Transform`'s ping-pong buffer bindings become `currentIndex`
  together with the two position-buffer slots;
* JavaScript floating point numbers become real numbers (`ℝ`).
-/

namespace ParticleLayer

noncomputable section Geodesy

/-- `EARTH_RADIUS` from the source: mean Earth radius in metres. -/
def EARTH_RADIUS : ℝ := 6370972

open Classical in
/-- JavaScript's `Math.atan2(y, x)` over the reals (signed zeros and NaN are
not modelled). -/
def atan2 (y x : ℝ) : ℝ :=
  if 0 < x then Real.arctan (y / x)
  else if x < 0 then
    (if 0 ≤ y then Real.arctan (y / x) + Real.pi else Real.arctan (y / x) - Real.pi)
  else if 0 < y then Real.pi / 2
  else if y < 0 then -(Real.pi / 2)
  else 0

/-- The latitude of a `[lng, lat]` point converted to radians
(`φ1 = from[1] * Math.PI / 180` in the source's `distanceTo`). -/
def phi (x : ℝ × ℝ) : ℝ := x.2 * Real.pi / 180

/-- The longitude of a `[lng, lat]` point converted to radians
(`λ1 = from[0] * Math.PI / 180` in the source's `distanceTo`). -/
def lam (x : ℝ × ℝ) : ℝ := x.1 * Real.pi / 180

/-- The intermediate value `a` of the source's `distanceTo`:
`sin²(Δφ/2) + cos φ1 · cos φ2 · sin²(Δλ/2)`. -/
def haverA (p q : ℝ × ℝ) : ℝ :=
  Real.sin ((phi q - phi p) / 2) * Real.sin ((phi q - phi p) / 2) +
    Real.cos (phi p) * Real.cos (phi q) * Real.sin ((lam q - lam p) / 2) *
      Real.sin ((lam q - lam p) / 2)

/-- `distanceTo(from, point)` from the source: great-circle distance between
two `[lng, lat]` points in degrees, by the haversine formula
(`c = 2 * Math.atan2(Math.sqrt(a), Math.sqrt(1 - a)); d = EARTH_RADIUS * c`). -/
def distanceTo (p q : ℝ × ℝ) : ℝ :=
  EARTH_RADIUS * (2 * atan2 (Real.sqrt (haverA p q)) (Real.sqrt (1 - haverA p q)))

/-- The viewport snapshot consumed by `_runTransformFeedback`: geographic
center, zoom, screen size, the optional `resolution` field (truthy exactly for
globe projections), the unprojection function and `getBounds()`. -/
structure Viewport where
  longitude : ℝ
  latitude : ℝ
  zoom : ℝ
  width : ℝ
  height : ℝ
  resolution : Option ℝ
  unproject : ℝ × ℝ → ℝ × ℝ
  getBounds : ℝ × ℝ × ℝ × ℝ

open Classical in
/-- `viewport.resolution ? 1 : 0` — JavaScript truthiness: `undefined` and `0`
are falsy. -/
def viewportSphere (v : Viewport) : ℝ :=
  match v.resolution with
  | none => 0
  | some r => if r = 0 then 0 else 1

/-- `[viewport.longitude, viewport.latitude]` from the source. -/
def viewportSphereCenter (v : Viewport) : ℝ × ℝ :=
  (v.longitude, v.latitude)

/-- `viewportSphereRadius` from the source: the `Math.max` of the haversine
distances from the viewport center to the unprojections of the three
screen-space probe points `[0,0]`, `[width/2, 0]` and `[0, height/2]`. -/
def viewportSphereRadius (v : Viewport) : ℝ :=
  max (distanceTo (viewportSphereCenter v) (v.unproject (0, 0)))
    (max (distanceTo (viewportSphereCenter v) (v.unproject (v.width / 2, 0)))
      (distanceTo (viewportSphereCenter v) (v.unproject (0, v.height / 2))))

/-- `viewportBounds` from the source: `viewport.getBounds()` with the latitudes
clamped to `[-85.051129, 85.051129]`. -/
def clampedViewportBounds (v : Viewport) : ℝ × ℝ × ℝ × ℝ :=
  match v.getBounds with
  | (a, b, c, d) => (a, max b (-85.051129), c, min d 85.051129)

/-- `viewportSpeedFactor` from the source:
`speedFactor * devicePixelRatio / 2 ** viewport.zoom`. -/
def viewportSpeedFactor (speedFactor devicePixelRatio zoom : ℝ) : ℝ :=
  speedFactor * devicePixelRatio / (2 : ℝ) ^ zoom

/-- The uniforms object passed to `transform.run` in `_runTransformFeedback`. -/
structure Uniforms where
  speedTexture : Option Unit
  bounds : ℝ × ℝ × ℝ × ℝ
  numParticles : ℕ
  maxAge : ℕ
  viewportSphere : ℝ
  viewportSphereCenter : ℝ × ℝ
  viewportSphereRadius : ℝ
  viewportBounds : ℝ × ℝ × ℝ × ℝ
  viewportSpeedFactor : ℝ
  time : ℝ
  seed : ℝ

/-- The uniforms literal built by `_runTransformFeedback`; `seed` is the value
drawn from the ambient source (`seed: Math.random()` in the source). -/
def mkUniforms (image : Option Unit) (bounds : ℝ × ℝ × ℝ × ℝ)
    (numParticles maxAge : ℕ) (speedFactor : ℝ) (v : Viewport)
    (devicePixelRatio time seed : ℝ) : Uniforms :=
  { speedTexture := image
    bounds := bounds
    numParticles := numParticles
    maxAge := maxAge
    viewportSphere := viewportSphere v
    viewportSphereCenter := viewportSphereCenter v
    viewportSphereRadius := viewportSphereRadius v
    viewportBounds := clampedViewportBounds v
    viewportSpeedFactor := viewportSpeedFactor speedFactor devicePixelRatio v.zoom
    time := time
    seed := seed }

end Geodesy

/-- `Buffer.copyData({sourceBuffer, readOffset, writeOffset, size})` of
luma.gl, as used by the source: offsets and size are in bytes, the buffers
hold 4-byte floats, and the copy replaces `size/4` floats of `dst` starting at
float index `writeOffset/4` with the floats of `src` starting at `readOffset/4`. -/
def copyData (dst src : List ℝ) (readOffset writeOffset size : ℕ) : List ℝ :=
  dst.take (writeOffset / 4) ++ (src.drop (readOffset / 4)).take (size / 4) ++
    dst.drop (writeOffset / 4 + size / 4)

/-- `Buffer.subData({data})` of luma.gl as used by `clear()`: overwrite the
buffer from offset 0 with `data` (a GL error, writing nothing, if `data` is
larger than the buffer). -/
def subData (buf data : List ℝ) : List ℝ :=
  if data.length ≤ buf.length then data ++ buf.drop data.length else buf

/-- The `ages` buffer contents built in `_setupTransformFeedback`:
`new Array(maxAge).fill(undefined).map((_, age) => new Array(numParticles).fill(age)).flat()`. -/
def agesData (numParticles maxAge : ℕ) : List ℝ :=
  ((List.range maxAge).map fun age : ℕ => List.replicate numParticles (age : ℝ)).flatten

/-- Age band `a` of a position buffer: the `numParticles * 3` floats starting
at float index `a * numParticles * 3` (the buffer layout documented in
`_setupTransformFeedback`). -/
def band (numParticles a : ℕ) (l : List ℝ) : List ℝ :=
  (l.drop (a * (numParticles * 3))).take (numParticles * 3)

/-- The layer's `this.state` as far as the transform feedback is concerned.
`currentIndex` is `transform.bufferTransform.currentIndex`: when `false`,
binding 0 is current (`sourcePositions` is read, `targetPositions` written);
`transform.swap()` toggles it. -/
structure LayerState where
  initialized : Bool
  numInstances : ℕ
  numAgedInstances : ℕ
  sourcePositions : Option (List ℝ)
  targetPositions : Option (List ℝ)
  ages : Option (List ℝ)
  currentIndex : Bool
  needsRedraw : Bool

/-- The state carried by either side of an `Except LayerState LayerState`. -/
def stateOf : Except LayerState LayerState → LayerState
  | .ok s => s
  | .error s => s

/-- The buffer bound as `sourcePosition` in the transform's current binding
(`bindings[currentIndex].sourceBuffers.sourcePosition`). -/
def currentSource (s : LayerState) : Option (List ℝ) :=
  if s.currentIndex then s.targetPositions else s.sourcePositions

/-- The buffer bound as `targetPosition` in the transform's current binding
(`bindings[currentIndex].feedbackBuffers.targetPosition`). -/
def currentTarget (s : LayerState) : Option (List ℝ) :=
  if s.currentIndex then s.sourcePositions else s.targetPositions

/-- `_deleteTransformFeedback` from the source.  When `initialized` is falsy it
returns at once.  Otherwise it calls `.delete()` on the three buffers and the
transform — a `TypeError` (modelled as `.error`) if they are `undefined` — and
then `setState`s the buffer fields to `undefined` while setting
`initialized: true` (the source writes `true`, not `false`, here). -/
def deleteTransformFeedback (s : LayerState) : Except LayerState LayerState :=
  if s.initialized = false then .ok s
  else
    match s.sourcePositions, s.targetPositions, s.ages with
    | some _, some _, some _ =>
        .ok { s with
          initialized := true
          sourcePositions := none
          targetPositions := none
          ages := none }
    | _, _, _ => .error s

/-- `_setupTransformFeedback` from the source.  If `initialized` is truthy the
old buffers are deleted first; then the two position buffers (zero-filled
`Float32Array(numInstances * 3)`), the ages buffer and the transform are
allocated in that order.  `allocOk k` tells whether the `k`-th allocation of
this call succeeds; a failed allocation throws, leaving the state as it was at
that point (after the deletion). -/
def setupTransformFeedback (allocOk : ℕ → Bool) (numParticles maxAge : ℕ)
    (s : LayerState) : Except LayerState LayerState :=
  match (if s.initialized then deleteTransformFeedback s else .ok s) with
  | .error e => .error e
  | .ok s1 =>
      if allocOk 0 = false then .error s1
      else if allocOk 1 = false then .error s1
      else if allocOk 2 = false then .error s1
      else if allocOk 3 = false then .error s1
      else
        .ok { s1 with
          initialized := true
          numInstances := numParticles * maxAge
          numAgedInstances := numParticles * (maxAge - 1)
          sourcePositions := some (List.replicate (numParticles * maxAge * 3) 0)
          targetPositions := some (List.replicate (numParticles * maxAge * 3) 0)
          ages := some (agesData numParticles maxAge)
          currentIndex := false }

/-- Modelled from the spec: the update kernel
`particle-layer-update-transform.vs.glsl` is not under `src/`.  Per the spec,
only age band 0 (the newest cohort) is advected each frame — its output is an
opaque function `kernel` of the uniforms and the band-0 floats — while the
instances of the older bands carry their input forward. -/
def transformRun (kernel : Uniforms → List ℝ → List ℝ) (u : Uniforms)
    (numParticles : ℕ) (src : List ℝ) : List ℝ :=
  kernel u (src.take (numParticles * 3)) ++ src.drop (numParticles * 3)

/-- `_runTransformFeedback` from the source.  If `image` is falsy it returns at
once.  Otherwise it builds the uniforms, performs the aging shift
(`sourcePositions.copyData` with `readOffset: 0`,
`writeOffset: numParticles * 4 * 3`, `size: numAgedInstances * 4 * 3`), runs
the transform (writing the current target buffer) and swaps the bindings. -/
noncomputable def runTransformFeedback (kernel : Uniforms → List ℝ → List ℝ)
    (image : Option Unit) (bounds : ℝ × ℝ × ℝ × ℝ) (numParticles maxAge : ℕ)
    (speedFactor : ℝ) (v : Viewport) (devicePixelRatio time seed : ℝ)
    (s : LayerState) : Except LayerState LayerState :=
  match image with
  | none => .ok s
  | some _ =>
      match s.sourcePositions, s.targetPositions with
      | some sp, some tp =>
          let u := mkUniforms image bounds numParticles maxAge speedFactor v
            devicePixelRatio time seed
          let srcBuf := if s.currentIndex then tp else sp
          let tgtBuf := if s.currentIndex then sp else tp
          let srcBuf' := copyData srcBuf tgtBuf 0 (numParticles * 4 * 3)
            (s.numAgedInstances * 4 * 3)
          let tgtBuf' := transformRun kernel u numParticles srcBuf'
          .ok { s with
            sourcePositions := some (if s.currentIndex then tgtBuf' else srcBuf')
            targetPositions := some (if s.currentIndex then srcBuf' else tgtBuf')
            currentIndex := !s.currentIndex }
      | _, _ => .error s

/-- `step()` from the source: `_runTransformFeedback` followed by
`setNeedsRedraw()` (not reached if the former throws). -/
noncomputable def step (kernel : Uniforms → List ℝ → List ℝ) (image : Option Unit)
    (bounds : ℝ × ℝ × ℝ × ℝ) (numParticles maxAge : ℕ) (speedFactor : ℝ)
    (v : Viewport) (devicePixelRatio time seed : ℝ) (s : LayerState) :
    Except LayerState LayerState :=
  match runTransformFeedback kernel image bounds numParticles maxAge speedFactor
      v devicePixelRatio time seed s with
  | .ok s' => .ok { s' with needsRedraw := true }
  | .error e => .error e

/-- `clear()` from the source: `subData` both position buffers with a
zero-filled `Float32Array(numInstances * 3)` and `setNeedsRedraw()`; a
`TypeError` (modelled as `.error`) if the buffers are `undefined`. -/
def clear (s : LayerState) : Except LayerState LayerState :=
  match s.sourcePositions, s.targetPositions with
  | some sp, some tp =>
      .ok { s with
        sourcePositions := some (subData sp (List.replicate (s.numInstances * 3) 0))
        targetPositions := some (subData tp (List.replicate (s.numInstances * 3) 0))
        needsRedraw := true }
  | _, _ => .error s

/-- The state of a layer that has never been set up. -/
def freshState : LayerState :=
  { initialized := false
    numInstances := 0
    numAgedInstances := 0
    sourcePositions := none
    targetPositions := none
    ages := none
    currentIndex := false
    needsRedraw := false }

/-- The state produced by a successful `_setupTransformFeedback` with
`numParticles = 2`, `maxAge = 2` from a fresh layer. -/
def c2result : LayerState :=
  { initialized := true
    numInstances := 4
    numAgedInstances := 2
    sourcePositions := some (List.replicate 12 0)
    targetPositions := some (List.replicate 12 0)
    ages := some (agesData 2 2)
    currentIndex := false
    needsRedraw := false }

/-- A freshly set-up layer state with `numParticles = 3`, `maxAge = 2`
(concrete input used to exercise the teardown fault). -/
def c4state : LayerState :=
  { initialized := true
    numInstances := 6
    numAgedInstances := 3
    sourcePositions := some (List.replicate 18 0)
    targetPositions := some (List.replicate 18 0)
    ages := some (agesData 3 2)
    currentIndex := false
    needsRedraw := false }

/-- An initialized layer state holding distinguishable prior buffer contents
(concrete input used to exercise a failing reallocation). -/
def c5state : LayerState :=
  { initialized := true
    numInstances := 1
    numAgedInstances := 0
    sourcePositions := some [42]
    targetPositions := some [43]
    ages := some [0]
    currentIndex := false
    needsRedraw := false }

/-- An initialized layer state with `numParticles = 1`, `maxAge = 2` and
distinguishable buffer contents (concrete input for one shift-and-advect
cycle). -/
def c1state : LayerState :=
  { initialized := true
    numInstances := 2
    numAgedInstances := 1
    sourcePositions := some [1, 2, 3, 4, 5, 6]
    targetPositions := some [7, 8, 9, 10, 11, 12]
    currentIndex := false
    ages := some (agesData 1 2)
    needsRedraw := false }

/-- The state after one shift-and-advect cycle from `c1state` with the
identity advection kernel. -/
def c1state' : LayerState :=
  { initialized := true
    numInstances := 2
    numAgedInstances := 1
    sourcePositions := some [1, 2, 3, 7, 8, 9]
    targetPositions := some [1, 2, 3, 7, 8, 9]
    currentIndex := true
    ages := some (agesData 1 2)
    needsRedraw := false }

/-- A kernel whose output records the seed uniform: it writes `u.seed` to every
float of band 0. -/
def seedKernel : Uniforms → List ℝ → List ℝ :=
  fun u b => List.replicate b.length u.seed

/-- An initialized layer state with `numParticles = 1`, `maxAge = 1` (concrete
input used to exhibit seed-dependence of the per-frame step). -/
def c10state : LayerState :=
  { initialized := true
    numInstances := 1
    numAgedInstances := 0
    sourcePositions := some [1, 2, 3]
    targetPositions := some [4, 5, 6]
    ages := some [0]
    currentIndex := false
    needsRedraw := false }

/-- A concrete viewport snapshot. -/
noncomputable def c10viewport : Viewport :=
  { longitude := 0
    latitude := 0
    zoom := 0
    width := 1
    height := 1
    resolution := none
    unproject := fun _ => (0, 0)
    getBounds := (0, 0, 0, 0) }

theorem agesData_length (N M : ℕ) : (agesData N M).length = M * N := by
  induction M with
  | zero => simp [agesData]
  | succ m ih =>
      unfold agesData at ih ⊢
      rw [List.range_succ, List.map_append]
      simp only [List.map_cons, List.map_nil, List.flatten_append, List.length_append, ih]
      simp [Nat.succ_mul]

theorem agesData_getElem (N M i : ℕ) (h : i < M * N) :
    (agesData N M)[i]? = some ((i / N : ℕ) : ℝ) := by
  induction M with
  | zero => omega
  | succ m ih =>
      rw [Nat.succ_mul] at h
      have hsplit : agesData N (m + 1) = agesData N m ++ List.replicate N (m : ℝ) := by
        unfold agesData
        rw [List.range_succ, List.map_append]
        simp
      rw [hsplit]
      by_cases him : i < m * N
      · rw [List.getElem?_append_left (by rw [agesData_length]; exact him)]
        exact ih him
      · have hlo : m * N ≤ i := le_of_not_lt him
        rw [List.getElem?_append_right (by rw [agesData_length]; exact hlo)]
        rw [agesData_length]
        have hdiv : i / N = m := Nat.div_eq_of_lt_le hlo (by rw [Nat.succ_mul]; omega)
        have hlt : i - m * N < N := by omega
        rw [hdiv, List.getElem?_replicate, if_pos hlt]

/-- C7: the zoom-compensated speed scale equals
`speedFactor * devicePixelRatio / 2 ^ zoom`, and increasing the zoom by
exactly 1 with all else equal halves the scale. -/
theorem viewportSpeedFactor_spec (sf dpr z : ℝ) :
    viewportSpeedFactor sf dpr z = sf * dpr / (2 : ℝ) ^ z ∧
    viewportSpeedFactor sf dpr (z + 1) = viewportSpeedFactor sf dpr z / 2 := by
  refine ⟨rfl, ?_⟩
  unfold viewportSpeedFactor
  rw [Real.rpow_add_one (by norm_num : (2 : ℝ) ≠ 0), div_div]

/-- C9: the effective visible sphere radius bounds from above the three
haversine distances from the viewport's geographic center to the unprojections
of the three screen-space probe points, and equals one of them: it is their
maximum. -/
theorem viewportSphereRadius_spec (v : Viewport) :
    (distanceTo (viewportSphereCenter v) (v.unproject (0, 0)) ≤ viewportSphereRadius v ∧
      distanceTo (viewportSphereCenter v) (v.unproject (v.width / 2, 0)) ≤ viewportSphereRadius v ∧
      distanceTo (viewportSphereCenter v) (v.unproject (0, v.height / 2)) ≤ viewportSphereRadius v) ∧
    (viewportSphereRadius v = distanceTo (viewportSphereCenter v) (v.unproject (0, 0)) ∨
      viewportSphereRadius v = distanceTo (viewportSphereCenter v) (v.unproject (v.width / 2, 0)) ∨
      viewportSphereRadius v = distanceTo (viewportSphereCenter v) (v.unproject (0, v.height / 2))) := by
  unfold viewportSphereRadius
  refine ⟨⟨le_max_left _ _, le_trans (le_max_left _ _) (le_max_right _ _),
    le_trans (le_max_right _ _) (le_max_right _ _)⟩, ?_⟩
  rcases max_choice (distanceTo (viewportSphereCenter v) (v.unproject (0, 0)))
      (max (distanceTo (viewportSphereCenter v) (v.unproject (v.width / 2, 0)))
        (distanceTo (viewportSphereCenter v) (v.unproject (0, v.height / 2)))) with h | h
  · exact Or.inl h
  · rcases max_choice (distanceTo (viewportSphereCenter v) (v.unproject (v.width / 2, 0)))
        (distanceTo (viewportSphereCenter v) (v.unproject (0, v.height / 2))) with h' | h'
    · exact Or.inr (Or.inl (h.trans h'))
    · exact Or.inr (Or.inr (h.trans h'))

/-- C3: stepping with no velocity-field image bound succeeds (no error) and
leaves the source-position, target-position and age buffers identical to their
pre-call state. -/
theorem step_noop_without_image (kernel : Uniforms → List ℝ → List ℝ)
    (bounds : ℝ × ℝ × ℝ × ℝ) (N M : ℕ) (sf : ℝ) (v : Viewport)
    (dpr time seed : ℝ) (s : LayerState) :
    step kernel none bounds N M sf v dpr time seed s = .ok { s with needsRedraw := true } ∧
    (stateOf (step kernel none bounds N M sf v dpr time seed s)).sourcePositions =
      s.sourcePositions ∧
    (stateOf (step kernel none bounds N M sf v dpr time seed s)).targetPositions =
      s.targetPositions ∧
    (stateOf (step kernel none bounds N M sf v dpr time seed s)).ages = s.ages :=
  ⟨rfl, rfl, rfl, rfl⟩

/-- C10: the uniforms passed to the advection kernel take their `seed` directly
from the ambient random draw (`Math.random()`), so two steps from identical
explicit state, viewport, time and configuration but different ambient draws
produce different results; determinism holds only once that draw is fixed. -/
theorem step_seed_from_ambient_source :
    (∀ (image : Option Unit) (bounds : ℝ × ℝ × ℝ × ℝ) (N M : ℕ) (sf : ℝ)
      (v : Viewport) (dpr time r : ℝ),
      (mkUniforms image bounds N M sf v dpr time r).seed = r) ∧
    stateOf (step seedKernel (some ()) (0, 0, 0, 0) 1 1 0 c10viewport 0 0 0 c10state) ≠
      stateOf (step seedKernel (some ()) (0, 0, 0, 0) 1 1 0 c10viewport 0 0 1 c10state) := by
  refine ⟨fun _ _ _ _ _ _ _ _ _ => rfl, ?_⟩
  intro h
  have h2 := congrArg LayerState.targetPositions h
  have e0 : (stateOf (step seedKernel (some ()) (0, 0, 0, 0) 1 1 0 c10viewport 0 0 0
      c10state)).targetPositions = some [(0 : ℝ), 0, 0] := rfl
  have e1 : (stateOf (step seedKernel (some ()) (0, 0, 0, 0) 1 1 0 c10viewport 0 0 1
      c10state)).targetPositions = some [(1 : ℝ), 1, 1] := rfl
  rw [e0, e1] at h2
  simp at h2

/-- C4 (code bug): teardown is not idempotent.  The first
`_deleteTransformFeedback` succeeds but its `setState` leaves `initialized`
set to `true`, so a second call passes the `initialized` guard and calls
`.delete()` on the now-`undefined` buffers — a `TypeError`, not a no-op. -/
theorem deleteTransformFeedback_not_idempotent :
    deleteTransformFeedback c4state =
      .ok { c4state with sourcePositions := none, targetPositions := none, ages := none } ∧
    (stateOf (deleteTransformFeedback c4state)).initialized = true ∧
    deleteTransformFeedback (stateOf (deleteTransformFeedback c4state)) =
      .error (stateOf (deleteTransformFeedback c4state)) :=
  ⟨rfl, rfl, rfl⟩

/-- C5 counterexample: from a state with prior buffers allocated, a failing
allocation during `_setupTransformFeedback` leaves a state in which the prior
buffers are gone — they were released before the new allocation was attempted,
so they do not "remain intact". -/
theorem setup_not_atomic_cex :
    setupTransformFeedback (fun _ => false) 1 1 c5state =
      .error { c5state with sourcePositions := none, targetPositions := none, ages := none } ∧
    c5state.sourcePositions = some [42] ∧
    (stateOf (setupTransformFeedback (fun _ => false) 1 1 c5state)).sourcePositions ≠
      c5state.sourcePositions := by
  refine ⟨rfl, rfl, ?_⟩
  intro h
  have h' : (none : Option (List ℝ)) = some [42] := h
  exact Option.noConfusion h'

/-- C5 amended: if any allocation during setup fails, none of the new buffers
are retained, but the previously allocated buffers do not remain intact:
`_setupTransformFeedback` deletes the old buffers before allocating, so the
state after the failure holds no buffers at all. -/
theorem setup_failure_releases_prior_buffers (allocOk : ℕ → Bool) (N M : ℕ)
    (s : LayerState) (hinit : s.initialized = true)
    (hsp : s.sourcePositions.isSome = true) (htp : s.targetPositions.isSome = true)
    (hag : s.ages.isSome = true)
    (hfail : allocOk 0 = false ∨ allocOk 1 = false ∨ allocOk 2 = false ∨ allocOk 3 = false) :
    setupTransformFeedback allocOk N M s =
      .error { s with
        initialized := true
        sourcePositions := none
        targetPositions := none
        ages := none } := by
  obtain ⟨sp, hsp'⟩ := Option.isSome_iff_exists.mp hsp
  obtain ⟨tp, htp'⟩ := Option.isSome_iff_exists.mp htp
  obtain ⟨ag, hag'⟩ := Option.isSome_iff_exists.mp hag
  simp only [setupTransformFeedback, deleteTransformFeedback, hinit, hsp', htp', hag',
    if_true, Bool.true_eq_false, if_false]
  rcases hfail with h | h | h | h <;> split_ifs <;> simp_all

/-- Witness for `setup_failure_releases_prior_buffers` at a concrete input. -/
theorem setup_failure_releases_prior_buffers_witness :
    setupTransformFeedback (fun _ => false) 2 3 c5state =
      .error { c5state with
        initialized := true
        sourcePositions := none
        targetPositions := none
        ages := none } :=
  setup_failure_releases_prior_buffers (fun _ => false) 2 3 c5state rfl rfl rfl rfl
    (Or.inl rfl)

theorem runTransformFeedback_ages (kernel : Uniforms → List ℝ → List ℝ)
    (image : Option Unit) (bounds : ℝ × ℝ × ℝ × ℝ) (N M : ℕ) (sf : ℝ)
    (v : Viewport) (dpr time seed : ℝ) (t : LayerState) :
    (stateOf (runTransformFeedback kernel image bounds N M sf v dpr time seed t)).ages =
      t.ages := by
  cases image with
  | none => rfl
  | some im =>
      rcases h1 : t.sourcePositions with _ | sp <;>
        rcases h2 : t.targetPositions with _ | tp <;>
          simp [runTransformFeedback, h1, h2, stateOf]

theorem clear_ages (t : LayerState) : (stateOf (clear t)).ages = t.ages := by
  rcases h1 : t.sourcePositions with _ | sp <;>
    rcases h2 : t.targetPositions with _ | tp <;>
      simp [clear, h1, h2, stateOf]

/-- C2: for every valid configuration, after a successful allocation both
position buffers hold `N*M*3` floats, the age buffer holds `N*M` floats whose
value at slot `i` is `⌊i/N⌋`, and the age buffer is never written afterwards:
neither the per-frame transform feedback nor `clear` changes it. -/
theorem setup_buffers_spec (N M : ℕ) (s s' : LayerState)
    (_hN : 1 ≤ N) (_hNmax : N ≤ 1000000) (_hM : 1 ≤ M) (_hMmax : M ≤ 255)
    (hinit : s.initialized = false)
    (hsetup : setupTransformFeedback (fun _ => true) N M s = .ok s') :
    (∃ l, s'.sourcePositions = some l ∧ l.length = N * M * 3) ∧
    (∃ l, s'.targetPositions = some l ∧ l.length = N * M * 3) ∧
    (∃ l, s'.ages = some l ∧ l.length = N * M ∧
      ∀ i, i < N * M → l[i]? = some ((i / N : ℕ) : ℝ)) ∧
    (∀ kernel image bounds N₂ M₂ sf v dpr time seed t t',
      runTransformFeedback kernel image bounds N₂ M₂ sf v dpr time seed t = .ok t' →
        t'.ages = t.ages) ∧
    (∀ t t', clear t = .ok t' → t'.ages = t.ages) := by
  have hred : setupTransformFeedback (fun _ => true) N M s =
      .ok { s with
        initialized := true
        numInstances := N * M
        numAgedInstances := N * (M - 1)
        sourcePositions := some (List.replicate (N * M * 3) 0)
        targetPositions := some (List.replicate (N * M * 3) 0)
        ages := some (agesData N M)
        currentIndex := false } := by
    unfold setupTransformFeedback
    rw [hinit]
    simp
  rw [hred] at hsetup
  obtain rfl : _ = s' := (Except.ok.injEq _ _).mp hsetup
  refine ⟨⟨_, rfl, by simp⟩, ⟨_, rfl, by simp⟩,
    ⟨agesData N M, rfl, by rw [agesData_length, Nat.mul_comm],
      fun i hi => agesData_getElem N M i (by rwa [Nat.mul_comm])⟩, ?_, ?_⟩
  · intro kernel image bounds N₂ M₂ sf v dpr time seed t t' hrun
    have := runTransformFeedback_ages kernel image bounds N₂ M₂ sf v dpr time seed t
    rw [hrun] at this
    exact this
  · intro t t' hclear
    have := clear_ages t
    rw [hclear] at this
    exact this

/-- Witness for `setup_buffers_spec`: a successful allocation with
`numParticles = 2`, `maxAge = 2` from a fresh layer. -/
theorem setup_buffers_spec_witness :
    (∃ l, c2result.sourcePositions = some l ∧ l.length = 2 * 2 * 3) ∧
    (∃ l, c2result.targetPositions = some l ∧ l.length = 2 * 2 * 3) ∧
    (∃ l, c2result.ages = some l ∧ l.length = 2 * 2 ∧
      ∀ i, i < 2 * 2 → l[i]? = some ((i / 2 : ℕ) : ℝ)) ∧
    (∀ kernel image bounds N₂ M₂ sf v dpr time seed t t',
      runTransformFeedback kernel image bounds N₂ M₂ sf v dpr time seed t = .ok t' →
        t'.ages = t.ages) ∧
    (∀ t t', clear t = .ok t' → t'.ages = t.ages) :=
  setup_buffers_spec 2 2 freshState c2result (by decide) (by decide) (by decide)
    (by decide) rfl rfl

/-- C6: for an initialized state whose position buffers have the allocated
length, `clear()` zeroes every element of both position buffers in place and
leaves the age buffer and all remaining state fields unchanged. -/
theorem clear_spec (s : LayerState) (sp tp : List ℝ)
    (hsp : s.sourcePositions = some sp) (htp : s.targetPositions = some tp)
    (hspl : sp.length = s.numInstances * 3) (htpl : tp.length = s.numInstances * 3) :
    clear s = .ok { s with
      sourcePositions := some (List.replicate (s.numInstances * 3) 0)
      targetPositions := some (List.replicate (s.numInstances * 3) 0)
      needsRedraw := true } ∧
    (stateOf (clear s)).ages = s.ages ∧
    (stateOf (clear s)).numInstances = s.numInstances ∧
    (stateOf (clear s)).numAgedInstances = s.numAgedInstances ∧
    (stateOf (clear s)).initialized = s.initialized ∧
    (stateOf (clear s)).currentIndex = s.currentIndex := by
  have hsub : ∀ l : List ℝ, l.length = s.numInstances * 3 →
      subData l (List.replicate (s.numInstances * 3) 0) =
        List.replicate (s.numInstances * 3) (0 : ℝ) := by
    intro l hl
    unfold subData
    rw [List.length_replicate, hl, if_pos le_rfl, ← hl, List.drop_length, List.append_nil]
  have hc : clear s = .ok { s with
      sourcePositions := some (List.replicate (s.numInstances * 3) 0)
      targetPositions := some (List.replicate (s.numInstances * 3) 0)
      needsRedraw := true } := by
    simp only [clear, hsp, htp]
    rw [hsub sp hspl, hsub tp htpl]
  refine ⟨hc, ?_, ?_, ?_, ?_, ?_⟩ <;> rw [hc] <;> rfl

/-- Witness for `clear_spec` at a concrete initialized state. -/
theorem clear_spec_witness :
    clear c4state = .ok { c4state with
      sourcePositions := some (List.replicate (c4state.numInstances * 3) 0)
      targetPositions := some (List.replicate (c4state.numInstances * 3) 0)
      needsRedraw := true } ∧
    (stateOf (clear c4state)).ages = c4state.ages ∧
    (stateOf (clear c4state)).numInstances = c4state.numInstances ∧
    (stateOf (clear c4state)).numAgedInstances = c4state.numAgedInstances ∧
    (stateOf (clear c4state)).initialized = c4state.initialized ∧
    (stateOf (clear c4state)).currentIndex = c4state.currentIndex :=
  clear_spec c4state (List.replicate 18 0) (List.replicate 18 0) rfl rfl rfl rfl

theorem copyData_shift (N m : ℕ) (src tgt : List ℝ)
    (hsl : src.length = N * (m + 1) * 3) :
    copyData src tgt 0 (N * 4 * 3) (N * m * 4 * 3) =
      src.take (N * 3) ++ tgt.take (N * m * 3) := by
  unfold copyData
  rw [show N * 4 * 3 / 4 = N * 3 by
    rw [show N * 4 * 3 = N * 3 * 4 by ring, Nat.mul_div_cancel _ (by norm_num)]]
  rw [show N * m * 4 * 3 / 4 = N * m * 3 by
    rw [show N * m * 4 * 3 = N * m * 3 * 4 by ring, Nat.mul_div_cancel _ (by norm_num)]]
  rw [Nat.zero_div, List.drop_zero]
  rw [show N * 3 + N * m * 3 = src.length by rw [hsl]; ring]
  rw [List.drop_length, List.append_nil]

theorem band_zero (N : ℕ) (l : List ℝ) : band N 0 l = l.take (N * 3) := by
  unfold band
  rw [Nat.zero_mul, List.drop_zero]

theorem band_append_take (N m a : ℕ) (src tgt : List ℝ) (ha : a + 1 ≤ m)
    (hs3 : N * 3 ≤ src.length) :
    band N (a + 1) (src.take (N * 3) ++ tgt.take (N * m * 3)) = band N a tgt := by
  unfold band
  have hA : (src.take (N * 3)).length = N * 3 := by
    rw [List.length_take]
    exact min_eq_left hs3
  rw [show (a + 1) * (N * 3) = (src.take (N * 3)).length + a * (N * 3) by rw [hA]; ring]
  rw [List.drop_append, List.drop_take, List.take_take]
  have key : a * (N * 3) + N * 3 ≤ N * m * 3 := by
    have h1 : (a + 1) * (N * 3) ≤ m * (N * 3) := Nat.mul_le_mul_right _ ha
    calc a * (N * 3) + N * 3 = (a + 1) * (N * 3) := by ring
      _ ≤ m * (N * 3) := h1
      _ = N * m * 3 := by ring
  rw [min_eq_left (Nat.le_sub_of_add_le' key)]

theorem shifted_take (N k : ℕ) (src tgt : List ℝ) (hs3 : N * 3 ≤ src.length) :
    (src.take (N * 3) ++ tgt.take k).take (N * 3) = src.take (N * 3) :=
  List.take_left' (by rw [List.length_take]; exact min_eq_left hs3)

theorem transformRun_band0 (kernel : Uniforms → List ℝ → List ℝ) (u : Uniforms)
    (N : ℕ) (l : List ℝ) (hk : (kernel u (l.take (N * 3))).length = N * 3) :
    band N 0 (transformRun kernel u N l) = kernel u (l.take (N * 3)) := by
  rw [band_zero]
  unfold transformRun
  exact List.take_left' hk

/-- C1: one shift-and-advect cycle with the velocity image bound.  The aging
shift is the single bulk copy `copyData` (size `numAgedInstances * 4 * 3`
bytes, i.e. `N*(M-1)*3` floats, written one band — `N*3` floats — in): after
the cycle, source band `a+1` equals the pre-cycle target band `a` for every
`a ∈ [0, M-2]` (the old source band `M-1` is overwritten, i.e. discarded),
band 0 of the freshly written target buffer holds the advected result of the
source's band 0, and when `M = 1` the shift copies nothing.  After the final
swap the cycle's source buffer is `currentTarget s'` and its target buffer is
`currentSource s'`. -/
theorem agingShift_spec (kernel : Uniforms → List ℝ → List ℝ)
    (bounds : ℝ × ℝ × ℝ × ℝ) (N M : ℕ) (sf : ℝ) (v : Viewport)
    (dpr time seed : ℝ) (s s' : LayerState) (src tgt : List ℝ)
    (hM : 1 ≤ M)
    (hsrc : currentSource s = some src) (htgt : currentTarget s = some tgt)
    (hsl : src.length = N * M * 3) (htl : tgt.length = N * M * 3)
    (haged : s.numAgedInstances = N * (M - 1))
    (hker : ∀ u b, b.length = N * 3 → (kernel u b).length = N * 3)
    (hrun : runTransformFeedback kernel (some ()) bounds N M sf v dpr time seed s = .ok s') :
    (∀ a, a + 1 ≤ M - 1 →
      band N (a + 1) ((currentTarget s').getD []) = band N a tgt) ∧
    band N 0 ((currentSource s').getD []) =
      kernel (mkUniforms (some ()) bounds N M sf v dpr time seed) (band N 0 src) ∧
    (M = 1 → currentTarget s' = some src) := by
  obtain ⟨m, rfl⟩ : ∃ m, M = m + 1 := ⟨M - 1, (Nat.succ_pred_eq_of_pos hM).symm⟩
  simp only [Nat.add_sub_cancel] at haged
  have hs3 : N * 3 ≤ src.length := by
    rw [hsl]
    have h1 : N * 3 * 1 ≤ N * 3 * (m + 1) := Nat.mul_le_mul_left _ (by omega)
    calc N * 3 = N * 3 * 1 := by ring
      _ ≤ N * 3 * (m + 1) := h1
      _ = N * (m + 1) * 3 := by ring
  have core : ∀ u : Uniforms,
      (∀ a, a + 1 ≤ m + 1 - 1 →
        band N (a + 1) (copyData src tgt 0 (N * 4 * 3) (N * m * 4 * 3)) = band N a tgt) ∧
      band N 0 (transformRun kernel u N (copyData src tgt 0 (N * 4 * 3) (N * m * 4 * 3))) =
        kernel u (band N 0 src) ∧
      (m + 1 = 1 → copyData src tgt 0 (N * 4 * 3) (N * m * 4 * 3) = src) := by
    intro u
    refine ⟨?_, ?_, ?_⟩
    · intro a ha
      simp only [Nat.add_sub_cancel] at ha
      rw [copyData_shift N m src tgt hsl]
      exact band_append_take N m a src tgt ha hs3
    · have htk : ((copyData src tgt 0 (N * 4 * 3) (N * m * 4 * 3)).take (N * 3)) =
          src.take (N * 3) := by
        rw [copyData_shift N m src tgt hsl]
        exact shifted_take N (N * m * 3) src tgt hs3
      have hk : (kernel u ((copyData src tgt 0 (N * 4 * 3) (N * m * 4 * 3)).take
          (N * 3))).length = N * 3 := by
        refine hker u _ ?_
        rw [htk, List.length_take]
        exact min_eq_left hs3
      rw [transformRun_band0 kernel u N _ hk, htk, band_zero]
    · intro h1
      obtain rfl : m = 0 := by omega
      rw [copyData_shift N 0 src tgt hsl]
      have : N * 0 * 3 = 0 := by ring
      rw [this, List.take_zero, List.append_nil]
      rw [show N * 3 = src.length by rw [hsl]; ring, List.take_length]
  cases hidx : s.currentIndex with
  | false =>
      simp only [currentSource, currentTarget, hidx] at hsrc htgt
      simp only [Bool.false_eq_true, if_false] at hsrc htgt
      simp only [runTransformFeedback, hsrc, htgt, hidx, haged, Bool.false_eq_true,
        if_false, Bool.not_false] at hrun
      obtain rfl : _ = s' := (Except.ok.injEq _ _).mp hrun
      simp only [currentSource, currentTarget, if_true, Option.getD_some]
      obtain ⟨h1, h2, h3⟩ := core (mkUniforms (some ()) bounds N (m + 1) sf v dpr time seed)
      exact ⟨h1, h2, fun hm => by rw [h3 hm]⟩
  | true =>
      simp only [currentSource, currentTarget, hidx] at hsrc htgt
      simp only [if_true] at hsrc htgt
      simp only [runTransformFeedback, hsrc, htgt, hidx, haged, if_true,
        Bool.not_true] at hrun
      obtain rfl : _ = s' := (Except.ok.injEq _ _).mp hrun
      simp only [currentSource, currentTarget, Bool.false_eq_true, if_false,
        Option.getD_some]
      obtain ⟨h1, h2, h3⟩ := core (mkUniforms (some ()) bounds N (m + 1) sf v dpr time seed)
      exact ⟨h1, h2, fun hm => by rw [h3 hm]⟩

/-- Witness for `agingShift_spec`: `numParticles = 1`, `maxAge = 2`, the
identity kernel, concrete buffers. -/
theorem agingShift_spec_witness :
    (∀ a, a + 1 ≤ 2 - 1 →
      band 1 (a + 1) ((currentTarget c1state').getD []) =
        band 1 a [7, 8, 9, 10, 11, 12]) ∧
    band 1 0 ((currentSource c1state').getD []) =
      (fun _ b => b : Uniforms → List ℝ → List ℝ)
        (mkUniforms (some ()) (0, 0, 0, 0) 1 2 0 c10viewport 0 0 0)
        (band 1 0 [1, 2, 3, 4, 5, 6]) ∧
    ((2 : ℕ) = 1 → currentTarget c1state' = some [1, 2, 3, 4, 5, 6]) :=
  agingShift_spec (fun _ b => b) (0, 0, 0, 0) 1 2 0 c10viewport 0 0 0 c1state c1state'
    [1, 2, 3, 4, 5, 6] [7, 8, 9, 10, 11, 12] (by decide) rfl rfl rfl rfl rfl
    (fun _ _ h => h) rfl

/-- C8: `distanceTo` computes the haversine great-circle distance with mean
Earth radius 6,370,972 m.  It vanishes on every pair of equal points, and
`distanceTo([0,0], [0,1])` is within 1% of 111,195 m. -/
theorem distanceTo_spec :
    (∀ p : ℝ × ℝ, distanceTo p p = 0) ∧
    |distanceTo (0, 0) (0, 1) - 111195| ≤ 111195 / 100 := by
  have hself : ∀ p : ℝ × ℝ, distanceTo p p = 0 := by
    intro p
    unfold distanceTo
    have ha : haverA p p = 0 := by
      unfold haverA
      simp [sub_self]
    rw [ha, Real.sqrt_zero, sub_zero, Real.sqrt_one]
    unfold atan2
    rw [if_pos one_pos]
    simp
  refine ⟨hself, ?_⟩
  have key : distanceTo (0, 0) (0, 1) = EARTH_RADIUS * (Real.pi / 180) := by
    have hphi1 : phi ((0 : ℝ), (1 : ℝ)) = Real.pi / 180 := by
      unfold phi
      norm_num
    have hphi0 : phi ((0 : ℝ), (0 : ℝ)) = 0 := by
      unfold phi
      norm_num
    have hlam1 : lam ((0 : ℝ), (1 : ℝ)) = 0 := by
      unfold lam
      norm_num
    have hlam0 : lam ((0 : ℝ), (0 : ℝ)) = 0 := by
      unfold lam
      norm_num
    set θ : ℝ := Real.pi / 360 with hθ
    have hpi := Real.pi_pos
    have hθpos : 0 < θ := by rw [hθ]; positivity
    have hθlt : θ < Real.pi / 2 := by rw [hθ]; linarith
    have hsin_nonneg : 0 ≤ Real.sin θ :=
      Real.sin_nonneg_of_nonneg_of_le_pi hθpos.le (by rw [hθ]; linarith)
    have hcos_pos : 0 < Real.cos θ :=
      Real.cos_pos_of_mem_Ioo (Set.mem_Ioo.mpr ⟨by linarith, hθlt⟩)
    have hA : haverA (0, 0) (0, 1) = Real.sin θ * Real.sin θ := by
      unfold haverA
      rw [hphi1, hphi0, hlam1, hlam0, sub_zero, sub_zero]
      simp only [zero_div, Real.sin_zero, mul_zero, zero_mul, add_zero]
      rw [hθ]
      norm_num [div_div]
    have h1A : 1 - haverA (0, 0) (0, 1) = Real.cos θ * Real.cos θ := by
      rw [hA]
      linear_combination -Real.sin_sq_add_cos_sq θ
    have hsq1 : Real.sqrt (haverA (0, 0) (0, 1)) = Real.sin θ := by
      rw [hA, Real.sqrt_mul_self hsin_nonneg]
    have hsq2 : Real.sqrt (1 - haverA (0, 0) (0, 1)) = Real.cos θ := by
      rw [h1A, Real.sqrt_mul_self hcos_pos.le]
    have hatan : atan2 (Real.sin θ) (Real.cos θ) = θ := by
      unfold atan2
      rw [if_pos hcos_pos, ← Real.tan_eq_sin_div_cos,
        Real.arctan_tan (by linarith) hθlt]
    unfold distanceTo
    rw [hsq1, hsq2, hatan, hθ]
    ring
  rw [key]
  unfold EARTH_RADIUS
  have hlo := Real.pi_gt_d6
  have hhi := Real.pi_lt_d2
  rw [abs_le]
  constructor <;> linarith

end ParticleLayer
